import Mathlib

/-!
Shallow embedding of the `ttai` sidecar supervisor
(`src-tauri/src/sidecar.rs` and `src-tauri/src/commands.rs`).

The Rust code wraps an optional OS child-process handle (`Arc<Mutex<Option<Child>>>`)
together with an HTTP client.  Effects are made explicit parameters:

* the mutex lock acquisition result (`self.child.lock()`) becomes a
  `lock : Except String Unit` parameter (`Except.error e` models a poisoned lock,
  where `e` is the `e.to_string()` message);
* process spawning (`Command::new("uv")...spawn()`) becomes a
  `spawn : Except String Child` parameter;
* the network becomes an oracle `net : Request → HttpResponse` mapping the HTTP
  request the code builds to either a transport failure of `send()` or a
  received response (status code plus a JSON body, with `.json()` decoding
  modelled by explicit serde-style decoders);
* `child.kill()` / `child.wait()` results become parameters that the embedding
  of `stop` discards, mirroring the `let _ =` in the source.

Machine state is `SidecarState` (the fields of `SidecarManager`; the
`reqwest::Client` carries no observable state and is represented by the `net`
oracle).  Stateful operations return `result × SidecarState`.
-/

/-- Opaque OS child-process handle (`std::process::Child`). -/
structure Child where
  pid : Nat
deriving DecidableEq, Repr

/-- The fields of `SidecarManager` (the `http_client` is modelled by the
network oracle and carries no state). -/
structure SidecarState where
  child : Option Child
  python_path : String
  base_url : String
deriving DecidableEq, Repr

/-- `SidecarManager::new` (sidecar.rs lines 33-40). -/
def SidecarManager.new (python_path : String) : SidecarState :=
  { child := none
    python_path := python_path
    base_url := "http://localhost:8080" }

/-- JSON values, for request/response bodies (`serde_json::Value`). -/
inductive Json where
  | null
  | bool (b : Bool)
  | num (n : Int)
  | str (s : String)
  | arr (elems : List Json)
  | obj (fields : List (String × Json))

/-- Field lookup in a JSON object (first binding wins), used only to observe
outputs in theorems. -/
def Json.getField : Json → String → Option Json
  | Json.obj fields, key => fields.lookup key
  | _, _ => none

/-- HTTP method of a request built by the supervisor. -/
inductive Method where
  | get
  | post
deriving DecidableEq, Repr

/-- The request the Rust code hands to `reqwest`: method, full URL, optional
JSON body, per-call timeout in seconds. -/
structure Request where
  method : Method
  url : String
  body : Option Json
  timeoutSecs : Nat

/-- Outcome of one HTTP exchange: `send()` failed at transport level
(carrying the formatted `reqwest` error `e`), or a response arrived with a
status code and a body. -/
inductive HttpResponse where
  | transportError (msg : String)
  | response (status : Nat) (body : Json)

/-- `reqwest::StatusCode::is_success`: the 2xx class. -/
def StatusCode.is_success (code : Nat) : Bool :=
  200 ≤ code && code < 300

/-- `SidecarManager::start` (sidecar.rs lines 42-72): fails if the child slot
is occupied, otherwise spawns and stores the handle.  Does not consult the
network. -/
def start (lock : Except String Unit) (spawn : Except String Child)
    (s : SidecarState) : Except String Unit × SidecarState :=
  match lock with
  | Except.error e => (Except.error e, s)
  | Except.ok _ =>
    match s.child with
    | some _ => (Except.error "Server already running", s)
    | none =>
      match spawn with
      | Except.error e =>
          (Except.error ("Failed to spawn Python server: " ++ e), s)
      | Except.ok c => (Except.ok (), { s with child := some c })

/-- `SidecarManager::stop` (sidecar.rs lines 176-186): takes the handle out of
the slot if present and kills/waits it, discarding both results
(`let _ = child.kill(); let _ = child.wait();`). -/
def stop (lock : Except String Unit) (killRes waitRes : Except String Unit)
    (s : SidecarState) : Except String Unit × SidecarState :=
  match lock with
  | Except.error e => (Except.error e, s)
  | Except.ok _ =>
    match s.child with
    | some _ =>
        let _ := killRes
        let _ := waitRes
        (Except.ok (), { s with child := none })
    | none => (Except.ok (), s)

/-- `SidecarManager::is_running` (sidecar.rs lines 188-190):
`self.child.lock().map(|g| g.is_some()).unwrap_or(false)`. -/
def is_running (lock : Except String Unit) (s : SidecarState) : Bool :=
  match lock with
  | Except.error _ => false
  | Except.ok _ => s.child.isSome

/-- The GET request built by `health_check` (sidecar.rs lines 91-100). -/
def healthRequest (s : SidecarState) : Request :=
  { method := Method.get
    url := s.base_url ++ "/api/health"
    body := none
    timeoutSecs := 2 }

/-- `SidecarManager::health_check` (sidecar.rs lines 91-107): GET on
`/api/health` with a 2s timeout; `Ok(())` iff the status is in the success
class, otherwise an error string carrying the status; transport errors map to
a distinct error string. -/
def health_check (net : Request → HttpResponse) (s : SidecarState) :
    Except String Unit :=
  match net (healthRequest s) with
  | HttpResponse.transportError e =>
      Except.error ("Health check failed: " ++ e)
  | HttpResponse.response status _ =>
      if StatusCode.is_success status then Except.ok ()
      else Except.error ("Health check returned " ++ toString status)

/-- Loop body of `wait_for_ready` (sidecar.rs lines 79-85): attempts indexed
from `attempt`, with `fuel` attempts left.  `net k` is the network state seen
by the health check issued at attempt index `k` (the 100ms sleeps between
attempts let the world change between polls). -/
def waitLoop (net : Nat → Request → HttpResponse) (s : SidecarState) :
    Nat → Nat → Except String Unit
  | 0, _ => Except.error "Server failed to start"
  | fuel + 1, attempt =>
      if (health_check (net attempt) s).isOk then Except.ok ()
      else waitLoop net s fuel (attempt + 1)

/-- `SidecarManager::wait_for_ready` (sidecar.rs lines 75-88):
`max_attempts = 50`, 100ms delay between polls. -/
def wait_for_ready (net : Nat → Request → HttpResponse) (s : SidecarState) :
    Except String Unit :=
  waitLoop net s 50 0

/-- `AuthStatus` (sidecar.rs lines 7-11). -/
structure AuthStatus where
  authenticated : Bool
  has_stored_credentials : Bool
deriving DecidableEq, Repr

/-- `LoginResponse` (sidecar.rs lines 13-17). -/
structure LoginResponse where
  success : Bool
  error : Option String
deriving DecidableEq, Repr

/-- `LogoutResponse` (sidecar.rs lines 19-23). -/
structure LogoutResponse where
  success : Bool
  error : Option String
deriving DecidableEq, Repr

/-- serde decoding of a `bool` field value. -/
def decodeBool : Json → Except String Bool
  | Json.bool b => Except.ok b
  | _ => Except.error "invalid type: expected a boolean"

/-- serde decoding of an `Option<String>` field value (`null` is `None`). -/
def decodeOptString : Json → Except String (Option String)
  | Json.null => Except.ok none
  | Json.str s => Except.ok (some s)
  | _ => Except.error "invalid type: expected a string or null"

/-- Field scan for serde structs of shape `{success: bool, error: Option<String>}`:
unknown fields are ignored, duplicates are errors, a missing `success` is an
error, a missing `error` defaults to `None` (serde treats `Option` fields as
optional). -/
def decodeSuccessError : List (String × Json) → Option Bool →
    Option (Option String) → Except String (Bool × Option String)
  | [], none, _ => Except.error "missing field `success`"
  | [], some b, oe => Except.ok (b, oe.getD none)
  | (k, v) :: rest, ob, oe =>
      if k = "success" then
        match ob with
        | some _ => Except.error "duplicate field `success`"
        | none =>
          match decodeBool v with
          | Except.error e => Except.error e
          | Except.ok b => decodeSuccessError rest (some b) oe
      else if k = "error" then
        match oe with
        | some _ => Except.error "duplicate field `error`"
        | none =>
          match decodeOptString v with
          | Except.error e => Except.error e
          | Except.ok o => decodeSuccessError rest ob (some o)
      else decodeSuccessError rest ob oe

/-- `response.json::<LoginResponse>()` body decoding. -/
def decodeLoginResponse : Json → Except String LoginResponse
  | Json.obj fields =>
      match decodeSuccessError fields none none with
      | Except.error e => Except.error e
      | Except.ok (b, o) => Except.ok { success := b, error := o }
  | _ => Except.error "invalid type: expected struct LoginResponse"

/-- `response.json::<LogoutResponse>()` body decoding. -/
def decodeLogoutResponse : Json → Except String LogoutResponse
  | Json.obj fields =>
      match decodeSuccessError fields none none with
      | Except.error e => Except.error e
      | Except.ok (b, o) => Except.ok { success := b, error := o }
  | _ => Except.error "invalid type: expected struct LogoutResponse"

/-- Field scan for the serde struct
`{authenticated: bool, has_stored_credentials: bool}`: both fields required. -/
def decodeAuthFields : List (String × Json) → Option Bool → Option Bool →
    Except String (Bool × Bool)
  | [], none, _ => Except.error "missing field `authenticated`"
  | [], some _, none => Except.error "missing field `has_stored_credentials`"
  | [], some a, some h => Except.ok (a, h)
  | (k, v) :: rest, oa, oh =>
      if k = "authenticated" then
        match oa with
        | some _ => Except.error "duplicate field `authenticated`"
        | none =>
          match decodeBool v with
          | Except.error e => Except.error e
          | Except.ok a => decodeAuthFields rest (some a) oh
      else if k = "has_stored_credentials" then
        match oh with
        | some _ => Except.error "duplicate field `has_stored_credentials`"
        | none =>
          match decodeBool v with
          | Except.error e => Except.error e
          | Except.ok h => decodeAuthFields rest oa (some h)
      else decodeAuthFields rest oa oh

/-- `response.json::<AuthStatus>()` body decoding. -/
def decodeAuthStatus : Json → Except String AuthStatus
  | Json.obj fields =>
      match decodeAuthFields fields none none with
      | Except.error e => Except.error e
      | Except.ok (a, h) => Except.ok { authenticated := a, has_stored_credentials := h }
  | _ => Except.error "invalid type: expected struct AuthStatus"

/-- The GET request built by `get_auth_status` (sidecar.rs lines 110-119). -/
def authStatusRequest (s : SidecarState) : Request :=
  { method := Method.get
    url := s.base_url ++ "/api/auth-status"
    body := none
    timeoutSecs := 5 }

/-- `SidecarManager::get_auth_status` (sidecar.rs lines 110-125): transport
errors map to a `Request failed:` message, undecodable bodies to a
`Failed to parse response:` message. -/
def get_auth_status (net : Request → HttpResponse) (s : SidecarState) :
    Except String AuthStatus :=
  match net (authStatusRequest s) with
  | HttpResponse.transportError e => Except.error ("Request failed: " ++ e)
  | HttpResponse.response _ body =>
      match decodeAuthStatus body with
      | Except.error e => Except.error ("Failed to parse response: " ++ e)
      | Except.ok r => Except.ok r

/-- The POST request built by `login` (sidecar.rs lines 134-147). -/
def loginRequest (s : SidecarState) (client_secret refresh_token : String)
    (remember_me : Bool) : Request :=
  { method := Method.post
    url := s.base_url ++ "/api/login"
    body := some (Json.obj
      [("client_secret", Json.str client_secret),
       ("refresh_token", Json.str refresh_token),
       ("remember_me", Json.bool remember_me)])
    timeoutSecs := 30 }

/-- `SidecarManager::login` (sidecar.rs lines 128-153). -/
def login (net : Request → HttpResponse) (s : SidecarState)
    (client_secret refresh_token : String) (remember_me : Bool) :
    Except String LoginResponse :=
  match net (loginRequest s client_secret refresh_token remember_me) with
  | HttpResponse.transportError e => Except.error ("Request failed: " ++ e)
  | HttpResponse.response _ body =>
      match decodeLoginResponse body with
      | Except.error e => Except.error ("Failed to parse response: " ++ e)
      | Except.ok r => Except.ok r

/-- The POST request built by `logout` (sidecar.rs lines 157-168). -/
def logoutRequest (s : SidecarState) (clear_credentials : Bool) : Request :=
  { method := Method.post
    url := s.base_url ++ "/api/logout"
    body := some (Json.obj [("clear_credentials", Json.bool clear_credentials)])
    timeoutSecs := 5 }

/-- `SidecarManager::logout` (sidecar.rs lines 156-174). -/
def logout (net : Request → HttpResponse) (s : SidecarState)
    (clear_credentials : Bool) : Except String LogoutResponse :=
  match net (logoutRequest s clear_credentials) with
  | HttpResponse.transportError e => Except.error ("Request failed: " ++ e)
  | HttpResponse.response _ body =>
      match decodeLogoutResponse body with
      | Except.error e => Except.error ("Failed to parse response: " ++ e)
      | Except.ok r => Except.ok r

/-- serde_json serialization of an `Option<String>` (`None` is `null`). -/
def optStrToJson : Option String → Json
  | none => Json.null
  | some s => Json.str s

/-- `mcp_login` command (commands.rs lines 49-64): forwards the decoded
result as `json!({"success": .., "error": ..})`. -/
def mcp_login (net : Request → HttpResponse) (s : SidecarState)
    (client_secret refresh_token : String) (remember_me : Bool) :
    Except String Json :=
  match login net s client_secret refresh_token remember_me with
  | Except.error e => Except.error e
  | Except.ok r =>
      Except.ok (Json.obj
        [("success", Json.bool r.success), ("error", optStrToJson r.error)])

/-- `mcp_logout` command (commands.rs lines 67-74): forwards the decoded
result as `json!({"success": ..})` — the `error` field of the decoded
`LogoutResponse` is not included in the payload. -/
def mcp_logout (net : Request → HttpResponse) (s : SidecarState)
    (clear_credentials : Bool) : Except String Json :=
  match logout net s clear_credentials with
  | Except.error e => Except.error e
  | Except.ok r => Except.ok (Json.obj [("success", Json.bool r.success)])

/-- `mcp_get_auth_status` command (commands.rs lines 77-85). -/
def mcp_get_auth_status (net : Request → HttpResponse) (s : SidecarState) :
    Except String Json :=
  match get_auth_status net s with
  | Except.error e => Except.error e
  | Except.ok r =>
      Except.ok (Json.obj
        [("authenticated", Json.bool r.authenticated),
         ("has_stored_credentials", Json.bool r.has_stored_credentials)])

/-- `reconnect_server` command (commands.rs lines 28-39): `stop` with its
result discarded (`let _ = manager.stop();`), then `start` with `?`, then
`wait_for_ready` with `?`.  `lockStop`/`lockStart` are the two lock
acquisitions, `net k` the network at poll attempt `k`. -/
def reconnect_server (lockStop lockStart : Except String Unit)
    (killRes waitRes : Except String Unit) (spawn : Except String Child)
    (net : Nat → Request → HttpResponse) (s : SidecarState) :
    Except String Unit × SidecarState :=
  let s1 := (stop lockStop killRes waitRes s).2
  match start lockStart spawn s1 with
  | (Except.error e, s2) => (Except.error e, s2)
  | (Except.ok _, s2) => (wait_for_ready net s2, s2)

/-- One supervisor operation together with the effects it consumes, for
reasoning about arbitrary call sequences. -/
inductive Op where
  | opStart (lock : Except String Unit) (spawn : Except String Child)
  | opStop (lock killRes waitRes : Except String Unit)
  | opIsRunning (lock : Except String Unit)
  | opHealth (net : Request → HttpResponse)
  | opWaitForReady (net : Nat → Request → HttpResponse)
  | opLogin (net : Request → HttpResponse)
      (client_secret refresh_token : String) (remember_me : Bool)
  | opLogout (net : Request → HttpResponse) (clear_credentials : Bool)
  | opAuthStatus (net : Request → HttpResponse)

/-- Whether an operation is a `stop`. -/
def Op.isStop : Op → Bool
  | Op.opStop _ _ _ => true
  | _ => false

/-- State effect of one operation (results are discarded; the remote HTTP
operations take `&self` and never lock the child slot, so they return no
state). -/
def applyOp : Op → SidecarState → SidecarState
  | Op.opStart lock spawn, s => (start lock spawn s).2
  | Op.opStop lock k w, s => (stop lock k w s).2
  | Op.opIsRunning lock, s => let _ := is_running lock s; s
  | Op.opHealth net, s => let _ := health_check net s; s
  | Op.opWaitForReady net, s => let _ := wait_for_ready net s; s
  | Op.opLogin net cs rt rm, s => let _ := login net s cs rt rm; s
  | Op.opLogout net cc, s => let _ := logout net s cc; s
  | Op.opAuthStatus net, s => let _ := get_auth_status net s; s

/-- Run a sequence of supervisor operations from a state. -/
def runOps (ops : List Op) (s : SidecarState) : SidecarState :=
  ops.foldl (fun t op => applyOp op t) s

/-! ## Concrete instances used to evaluate the model -/

/-- A concrete child handle. -/
def childOne : Child := { pid := 1 }

/-- A supervisor state holding a child handle (state `Running`). -/
def runningState : SidecarState :=
  { child := some childOne
    python_path := "py"
    base_url := "http://localhost:8080" }

/-- A freshly constructed supervisor state (state `Stopped`). -/
def stoppedState : SidecarState := SidecarManager.new "py"

/-- A network where the sidecar answers every request with 200. -/
def upNet : Nat → Request → HttpResponse :=
  fun _ _ => HttpResponse.response 200 Json.null

/-- A network where the sidecar is unreachable at every poll. -/
def downNet : Nat → Request → HttpResponse :=
  fun _ _ => HttpResponse.transportError "connection refused"

/-- A network where the first ten polls fail at transport level and later
polls answer 200. -/
def readyNet : Nat → Request → HttpResponse :=
  fun k _ =>
    if k < 10 then HttpResponse.transportError "connection refused"
    else HttpResponse.response 200 Json.null

/-- A single-request network that fails at transport level. -/
def failNet : Request → HttpResponse :=
  fun _ => HttpResponse.transportError "connection refused"

/-- A single-request network that answers 200 with a non-object body. -/
def malformedNet : Request → HttpResponse :=
  fun _ => HttpResponse.response 200 (Json.str "oops")

/-- A single-request network whose body decodes as
`{success: true, error: null}`. -/
def goodLoginNet : Request → HttpResponse :=
  fun _ => HttpResponse.response 200
    (Json.obj [("success", Json.bool true), ("error", Json.null)])

/-- A single-request network whose body decodes as
`{success: false, error: "boom"}`. -/
def boomNet : Request → HttpResponse :=
  fun _ => HttpResponse.response 200
    (Json.obj [("success", Json.bool false), ("error", Json.str "boom")])

/-! ## Helper lemmas -/

theorem exceptUnit_isOk_iff (r : Except String Unit) :
    r.isOk = true ↔ r = Except.ok () := by
  cases r with
  | error e => simp [Except.isOk, Except.toBool]
  | ok u => cases u; simp [Except.isOk, Except.toBool]

theorem waitLoop_ok_iff (net : Nat → Request → HttpResponse) (s : SidecarState) :
    ∀ fuel attempt, waitLoop net s fuel attempt = Except.ok () ↔
      ∃ j, j < fuel ∧ health_check (net (attempt + j)) s = Except.ok () := by
  intro fuel
  induction fuel with
  | zero => intro attempt; simp [waitLoop]
  | succ n ih =>
      intro attempt
      simp only [waitLoop]
      by_cases h : (health_check (net attempt) s).isOk = true
      · rw [if_pos (by exact_mod_cast h)]
        rw [exceptUnit_isOk_iff] at h
        exact ⟨fun _ => ⟨0, Nat.succ_pos n, by simpa using h⟩, fun _ => rfl⟩
      · rw [if_neg (by exact_mod_cast h)]
        rw [ih]
        constructor
        · rintro ⟨j, hj, hh⟩
          refine ⟨j + 1, by omega, ?_⟩
          have : attempt + (j + 1) = attempt + 1 + j := by omega
          rw [this]; exact hh
        · rintro ⟨j, hj, hh⟩
          cases j with
          | zero =>
              exfalso
              apply h
              rw [exceptUnit_isOk_iff]
              simpa using hh
          | succ k =>
              refine ⟨k, by omega, ?_⟩
              have : attempt + 1 + k = attempt + (k + 1) := by omega
              rw [this]; exact hh

theorem waitLoop_ok_or_error (net : Nat → Request → HttpResponse)
    (s : SidecarState) :
    ∀ fuel attempt, waitLoop net s fuel attempt = Except.ok () ∨
      waitLoop net s fuel attempt = Except.error "Server failed to start" := by
  intro fuel
  induction fuel with
  | zero => intro attempt; right; rfl
  | succ n ih =>
      intro attempt
      simp only [waitLoop]
      by_cases h : (health_check (net attempt) s).isOk = true
      · left; rw [if_pos (by exact_mod_cast h)]
      · rw [if_neg (by exact_mod_cast h)]; exact ih (attempt + 1)

theorem request_failed_ne_parse_failed (e d : String) :
    ("Request failed: " ++ e) ≠ ("Failed to parse response: " ++ d) := by
  intro h
  have h2 : ("Request failed: " ++ e).data =
      ("Failed to parse response: " ++ d).data := by rw [h]
  rw [String.data_append, String.data_append] at h2
  have h3 : List.take 1 ("Request failed: ".data ++ e.data) =
      List.take 1 ("Failed to parse response: ".data ++ d.data) := by rw [h2]
  rw [List.take_append_of_le_length (by decide),
    List.take_append_of_le_length (by decide)] at h3
  exact absurd h3 (by decide)

theorem health_returned_ne_health_failed (e d : String) :
    ("Health check returned " ++ e) ≠ ("Health check failed: " ++ d) := by
  intro h
  have h2 : ("Health check returned " ++ e).data =
      ("Health check failed: " ++ d).data := by rw [h]
  rw [String.data_append, String.data_append] at h2
  have h3 : List.take 14 ("Health check returned ".data ++ e.data) =
      List.take 14 ("Health check failed: ".data ++ d.data) := by rw [h2]
  rw [List.take_append_of_le_length (by decide),
    List.take_append_of_le_length (by decide)] at h3
  exact absurd h3 (by decide)

theorem child_erase_eq_self (s : SidecarState) (h : s.child = none) :
    { s with child := none } = s := by
  cases s
  simp_all

theorem applyOp_keeps_child (op : Op) (s : SidecarState)
    (hop : op.isStop = false) (hs : s.child.isSome = true) :
    ((applyOp op s).child).isSome = true := by
  cases op with
  | opStart lock spawn =>
      cases lock with
      | error e => simpa [applyOp, start] using hs
      | ok u =>
          cases hc : s.child with
          | none => rw [hc] at hs; simp at hs
          | some c => simp [applyOp, start, hc]
  | opStop lock k w => simp [Op.isStop] at hop
  | opIsRunning lock => simpa [applyOp] using hs
  | opHealth net => simpa [applyOp] using hs
  | opWaitForReady net => simpa [applyOp] using hs
  | opLogin net cs rt rm => simpa [applyOp] using hs
  | opLogout net cc => simpa [applyOp] using hs
  | opAuthStatus net => simpa [applyOp] using hs

theorem runOps_keeps_child (ops : List Op) :
    ∀ s : SidecarState, (∀ op ∈ ops, op.isStop = false) →
      s.child.isSome = true → ((runOps ops s).child).isSome = true := by
  induction ops with
  | nil => intro s _ hs; simpa [runOps] using hs
  | cons op rest ih =>
      intro s hops hs
      have hstep := applyOp_keeps_child op s (hops op (by simp)) hs
      have htail : ∀ o ∈ rest, Op.isStop o = false := fun o ho =>
        hops o (by simp [ho])
      simpa [runOps] using ih (applyOp op s) htail hstep

/-! ## Claim theorems -/

/-- C1: at most one child handle ever exists. `start` while a handle is
present fails with the `AlreadyRunning` error and leaves the state — and its
single handle — unchanged, so no second process is spawned; this persists
across any stop-free sequence of further operations.  `start` from `Stopped`
with a successful spawn stores the handle, transitions to `Running`, and
returns success without consulting the health endpoint (it takes no network
oracle at all). -/
theorem start_no_double_spawn :
    (∀ (spawn : Except String Child) (s : SidecarState) (c : Child),
       s.child = some c →
       start (Except.ok ()) spawn s =
         (Except.error "Server already running", s)) ∧
    (∀ (s : SidecarState) (c : Child), s.child = none →
       start (Except.ok ()) (Except.ok c) s =
         (Except.ok (), { s with child := some c })) ∧
    (∀ (ops : List Op) (spawn : Except String Child) (s : SidecarState),
       s.child.isSome = true → (∀ op ∈ ops, op.isStop = false) →
       (start (Except.ok ()) spawn (runOps ops s)).1 =
         Except.error "Server already running") := by
  refine ⟨?_, ?_, ?_⟩
  · intro spawn s c hc
    simp [start, hc]
  · intro s c hc
    simp [start, hc]
  · intro ops spawn s hs hops
    have h := runOps_keeps_child ops s hops hs
    rcases Option.isSome_iff_exists.mp h with ⟨c, hc⟩
    simp [start, hc]

/-- Witness for C1 at concrete inputs. -/
theorem start_no_double_spawn_witness :
    (start (Except.ok ()) (Except.ok { pid := 2 }) runningState =
       (Except.error "Server already running", runningState)) ∧
    (start (Except.ok ()) (Except.ok childOne) stoppedState =
       (Except.ok (), runningState)) ∧
    ((start (Except.ok ()) (Except.ok { pid := 2 })
        (runOps [Op.opIsRunning (Except.ok ())] runningState)).1 =
       Except.error "Server already running") :=
  ⟨start_no_double_spawn.1 (Except.ok { pid := 2 }) runningState childOne rfl,
   start_no_double_spawn.2.1 stoppedState childOne rfl,
   start_no_double_spawn.2.2 [Op.opIsRunning (Except.ok ())]
     (Except.ok { pid := 2 }) runningState rfl
     (by intro op hop; rw [List.mem_singleton] at hop; subst hop; rfl)⟩

/-- C2: `stop` with the lock available always returns success and leaves the
child slot empty, whatever the kill/wait outcomes (they are discarded); it is
a no-op when already stopped; the only reportable error is the lock
acquisition failure, which leaves the state untouched; and a second `stop`
directly after a first never fails. -/
theorem stop_idempotent_spec (k w k2 w2 : Except String Unit)
    (s : SidecarState) :
    stop (Except.ok ()) k w s = (Except.ok (), { s with child := none }) ∧
    (s.child = none → stop (Except.ok ()) k w s = (Except.ok (), s)) ∧
    (∀ e, stop (Except.error e) k w s = (Except.error e, s)) ∧
    stop (Except.ok ()) k2 w2 (stop (Except.ok ()) k w s).2 =
      (Except.ok (), (stop (Except.ok ()) k w s).2) := by
  have h2 : (stop (Except.ok ()) k w s).2 = { s with child := none } := by
    cases hc : s.child with
    | none => simp [stop, hc, child_erase_eq_self s hc]
    | some c => simp [stop, hc]
  refine ⟨?_, ?_, ?_, ?_⟩
  · cases hc : s.child with
    | none => simp [stop, hc, child_erase_eq_self s hc]
    | some c => simp [stop, hc]
  · intro hc
    simp [stop, hc]
  · intro e
    simp [stop]
  · rw [h2]
    simp [stop]

/-- Witness for C2 at concrete inputs: stopping a running supervisor with
failing kill/wait still succeeds, and stopping again succeeds and is a
no-op. -/
theorem stop_idempotent_spec_witness :
    stop (Except.ok ()) (Except.error "kill failed") (Except.error "wait failed")
        runningState = (Except.ok (), stoppedState) ∧
    stop (Except.ok ()) (Except.ok ()) (Except.ok ()) stoppedState =
      (Except.ok (), stoppedState) :=
  ⟨(stop_idempotent_spec (Except.error "kill failed")
      (Except.error "wait failed") (Except.ok ()) (Except.ok ())
      runningState).1,
   (stop_idempotent_spec (Except.ok ()) (Except.ok ()) (Except.ok ())
      (Except.ok ()) stoppedState).2.1 rfl⟩

/-- C9: `is_running` is a pure boolean query — it takes no network oracle and
returns no state.  It is `false` on a fresh supervisor (for any lock outcome,
since a poisoned lock maps to `false`), `false` after any `stop`, and `true`
immediately after a successful `start`, with no readiness requirement. -/
theorem is_running_query (p : String) (s : SidecarState)
    (lock k w : Except String Unit) (spawn : Except String Child) :
    is_running lock (SidecarManager.new p) = false ∧
    is_running (Except.ok ()) (stop (Except.ok ()) k w s).2 = false ∧
    ((start (Except.ok ()) spawn s).1 = Except.ok () →
       is_running (Except.ok ()) (start (Except.ok ()) spawn s).2 = true) := by
  refine ⟨?_, ?_, ?_⟩
  · cases lock with
    | error e => rfl
    | ok u => rfl
  · cases hc : s.child with
    | none => simp [stop, hc, is_running]
    | some c => simp [stop, hc, is_running]
  · intro h
    cases hc : s.child with
    | some c => simp [start, hc] at h
    | none =>
        cases hspawn : spawn with
        | error e => simp [start, hc, hspawn] at h
        | ok c => simp [start, hc, hspawn, is_running]

/-- Witness for C9 at concrete inputs. -/
theorem is_running_query_witness :
    is_running (Except.ok ()) (SidecarManager.new "py") = false ∧
    is_running (Except.ok ())
      (start (Except.ok ()) (Except.ok childOne) stoppedState).2 = true :=
  ⟨(is_running_query "py" stoppedState (Except.ok ()) (Except.ok ())
      (Except.ok ()) (Except.ok childOne)).1,
   (is_running_query "py" stoppedState (Except.ok ()) (Except.ok ())
      (Except.ok ()) (Except.ok childOne)).2.2 rfl⟩

/-- C3: `wait_for_ready` polls the health check over attempt indices 0..49:
it returns success whenever some attempt index below 50 sees a successful
health check, and it returns the readiness-exhausted error exactly when all
50 attempts fail. -/
theorem wait_for_ready_poll (net : Nat → Request → HttpResponse)
    (s : SidecarState) :
    ((∃ k, k < 50 ∧ health_check (net k) s = Except.ok ()) →
       wait_for_ready net s = Except.ok ()) ∧
    (wait_for_ready net s = Except.error "Server failed to start" ↔
       ∀ k, k < 50 → health_check (net k) s ≠ Except.ok ()) := by
  have hok := waitLoop_ok_iff net s 50 0
  have hdi := waitLoop_ok_or_error net s 50 0
  constructor
  · rintro ⟨k, hk, hh⟩
    show waitLoop net s 50 0 = Except.ok ()
    exact hok.mpr ⟨k, hk, by simpa using hh⟩
  · constructor
    · intro herr k hk hh
      have hkk := hok.mpr ⟨k, hk, by simpa using hh⟩
      have : Except.ok () = Except.error "Server failed to start" := by
        rw [← hkk]; exact herr
      cases this
    · intro hall
      rcases hdi with hcase | hcase
      · exfalso
        rcases hok.mp hcase with ⟨j, hj, hh⟩
        exact hall j hj (by simpa using hh)
      · exact hcase

/-- Witness for C3 at concrete inputs: a health endpoint that fails for the
first 10 polls and then answers 200 makes `wait_for_ready` succeed; one that
never answers makes it fail with the readiness-exhausted error. -/
theorem wait_for_ready_poll_witness :
    wait_for_ready readyNet stoppedState = Except.ok () ∧
    wait_for_ready downNet stoppedState =
      Except.error "Server failed to start" :=
  ⟨(wait_for_ready_poll readyNet stoppedState).1 ⟨10, by decide, rfl⟩,
   (wait_for_ready_poll downNet stoppedState).2.mpr
     (fun k _ hh => Except.noConfusion hh)⟩

/-- C4: `reconnect_server` is exactly `stop` with its result discarded, then
`start`, then `wait_for_ready`.  With the locks available: a failing spawn
surfaces the spawn error and leaves the supervisor stopped (child slot
empty); a successful spawn leaves the new handle stored and returns the
readiness-poll result; and an overall success implies the newly started
instance answered a health check within the 50-attempt budget. -/
theorem reconnect_stop_start_ready (k w : Except String Unit)
    (spawn : Except String Child) (net : Nat → Request → HttpResponse)
    (s : SidecarState) :
    (∀ l1 l2, reconnect_server l1 l2 k w spawn net s =
       match start l2 spawn (stop l1 k w s).2 with
       | (Except.error e, s2) => (Except.error e, s2)
       | (Except.ok _, s2) => (wait_for_ready net s2, s2)) ∧
    (∀ e, spawn = Except.error e →
       reconnect_server (Except.ok ()) (Except.ok ()) k w spawn net s =
         (Except.error ("Failed to spawn Python server: " ++ e),
          { s with child := none })) ∧
    (∀ c, spawn = Except.ok c →
       reconnect_server (Except.ok ()) (Except.ok ()) k w spawn net s =
         (wait_for_ready net { s with child := some c },
          { s with child := some c })) ∧
    ((reconnect_server (Except.ok ()) (Except.ok ()) k w spawn net s).1 =
        Except.ok () →
       ∃ c, spawn = Except.ok c ∧ ∃ j, j < 50 ∧
         health_check (net j) { s with child := some c } = Except.ok ()) := by
  have hstop : (stop (Except.ok ()) k w s).2 = { s with child := none } := by
    cases hc : s.child with
    | none => simp [stop, hc, child_erase_eq_self s hc]
    | some c => simp [stop, hc]
  have h2 : ∀ e, spawn = Except.error e →
      reconnect_server (Except.ok ()) (Except.ok ()) k w spawn net s =
        (Except.error ("Failed to spawn Python server: " ++ e),
         { s with child := none }) := by
    intro e he
    subst he
    simp [reconnect_server, hstop, start]
  have h3 : ∀ c, spawn = Except.ok c →
      reconnect_server (Except.ok ()) (Except.ok ()) k w spawn net s =
        (wait_for_ready net { s with child := some c },
         { s with child := some c }) := by
    intro c hc
    subst hc
    simp [reconnect_server, hstop, start]
  refine ⟨fun l1 l2 => rfl, h2, h3, ?_⟩
  intro hok
  cases hspawn : spawn with
  | error e =>
      rw [h2 e hspawn] at hok
      cases hok
  | ok c =>
      rw [h3 c hspawn] at hok
      have := (waitLoop_ok_iff net { s with child := some c } 50 0).mp hok
      rcases this with ⟨j, hj, hh⟩
      exact ⟨c, rfl, j, hj, by simpa using hh⟩

/-- Witness for C4 at concrete inputs: a failing spawn surfaces its error and
leaves the supervisor stopped; a successful reconnect against a live network
implies a health-check success within the budget. -/
theorem reconnect_stop_start_ready_witness :
    reconnect_server (Except.ok ()) (Except.ok ()) (Except.ok ())
        (Except.ok ()) (Except.error "no uv") upNet runningState =
      (Except.error "Failed to spawn Python server: no uv", stoppedState) ∧
    (∃ c, (Except.ok childOne : Except String Child) = Except.ok c ∧
       ∃ j, j < 50 ∧
         health_check (upNet j) { runningState with child := some c } =
           Except.ok ()) :=
  ⟨(reconnect_stop_start_ready (Except.ok ()) (Except.ok ())
      (Except.error "no uv") upNet runningState).2.1 "no uv" rfl,
   (reconnect_stop_start_ready (Except.ok ()) (Except.ok ())
      (Except.ok childOne) upNet runningState).2.2.2 rfl⟩

/-- C5: `health_check` succeeds exactly when the GET on the health endpoint
yields a response with a 2xx status; a non-2xx response yields the
status-carrying error message, a transport failure yields the transport error
message, and the two error shapes can never coincide. -/
theorem health_check_classifies (net : Request → HttpResponse)
    (s : SidecarState) :
    (health_check net s = Except.ok () ↔
       ∃ st b, net (healthRequest s) = HttpResponse.response st b ∧
         StatusCode.is_success st = true) ∧
    (∀ st b, net (healthRequest s) = HttpResponse.response st b →
       StatusCode.is_success st = false →
       health_check net s =
         Except.error ("Health check returned " ++ toString st)) ∧
    (∀ e, net (healthRequest s) = HttpResponse.transportError e →
       health_check net s = Except.error ("Health check failed: " ++ e)) ∧
    (∀ (st : Nat) (e : String), ("Health check returned " ++ toString st) ≠
       ("Health check failed: " ++ e)) := by
  refine ⟨?_, ?_, ?_, fun st e => health_returned_ne_health_failed (toString st) e⟩
  · cases hnet : net (healthRequest s) with
    | transportError e =>
        simp [health_check, hnet]
    | response st b =>
        by_cases hs : StatusCode.is_success st = true
        · simp only [health_check, hnet, if_pos hs]
          exact ⟨fun _ => ⟨st, b, rfl, hs⟩, fun _ => trivial⟩
        · simp only [health_check, hnet, if_neg hs]
          constructor
          · intro h; cases h
          · rintro ⟨st2, b2, heq, hsc⟩
            injection heq with he1 he2
            subst he1
            exact absurd hsc hs
  · intro st b hnet hs
    simp [health_check, hnet, hs]
  · intro e hnet
    simp [health_check, hnet]

/-- Witness for C5 at concrete inputs: a 500 response yields the
status-carrying error, a transport failure the transport error. -/
theorem health_check_classifies_witness :
    health_check (fun _ => HttpResponse.response 500 Json.null) stoppedState =
      Except.error "Health check returned 500" ∧
    health_check failNet stoppedState =
      Except.error "Health check failed: connection refused" :=
  ⟨(health_check_classifies (fun _ => HttpResponse.response 500 Json.null)
      stoppedState).2.1 500 Json.null rfl rfl,
   (health_check_classifies failNet stoppedState).2.2.1
     "connection refused" rfl⟩

/-- C6: for each remote operation (`login`, `logout`, `get_auth_status`), a
transport failure yields the `Request failed:` error, an undecodable body
yields the `Failed to parse response:` error — each a returned error value,
never a panic or a defaulted success — and the two error shapes can never
coincide. -/
theorem remote_decode_distinct (net : Request → HttpResponse)
    (s : SidecarState) (cs rt : String) (rm cc : Bool) :
    (∀ e, net (loginRequest s cs rt rm) = HttpResponse.transportError e →
       login net s cs rt rm = Except.error ("Request failed: " ++ e)) ∧
    (∀ st b e, net (loginRequest s cs rt rm) = HttpResponse.response st b →
       decodeLoginResponse b = Except.error e →
       login net s cs rt rm =
         Except.error ("Failed to parse response: " ++ e)) ∧
    (∀ e, net (logoutRequest s cc) = HttpResponse.transportError e →
       logout net s cc = Except.error ("Request failed: " ++ e)) ∧
    (∀ st b e, net (logoutRequest s cc) = HttpResponse.response st b →
       decodeLogoutResponse b = Except.error e →
       logout net s cc = Except.error ("Failed to parse response: " ++ e)) ∧
    (∀ e, net (authStatusRequest s) = HttpResponse.transportError e →
       get_auth_status net s = Except.error ("Request failed: " ++ e)) ∧
    (∀ st b e, net (authStatusRequest s) = HttpResponse.response st b →
       decodeAuthStatus b = Except.error e →
       get_auth_status net s =
         Except.error ("Failed to parse response: " ++ e)) ∧
    (∀ e d, ("Request failed: " ++ e) ≠ ("Failed to parse response: " ++ d)) := by
  refine ⟨?_, ?_, ?_, ?_, ?_, ?_, request_failed_ne_parse_failed⟩
  · intro e hnet
    simp [login, hnet]
  · intro st b e hnet hdec
    simp [login, hnet, hdec]
  · intro e hnet
    simp [logout, hnet]
  · intro st b e hnet hdec
    simp [logout, hnet, hdec]
  · intro e hnet
    simp [get_auth_status, hnet]
  · intro st b e hnet hdec
    simp [get_auth_status, hnet, hdec]

/-- Witness for C6 at concrete inputs: an unreachable endpoint yields the
transport error, a non-object body yields the decode error. -/
theorem remote_decode_distinct_witness :
    login failNet stoppedState "cs" "rt" true =
      Except.error "Request failed: connection refused" ∧
    get_auth_status malformedNet stoppedState =
      Except.error
        "Failed to parse response: invalid type: expected struct AuthStatus" ∧
    logout malformedNet stoppedState true =
      Except.error
        "Failed to parse response: invalid type: expected struct LogoutResponse" :=
  ⟨(remote_decode_distinct failNet stoppedState "cs" "rt" true true).1
     "connection refused" rfl,
   (remote_decode_distinct malformedNet stoppedState "cs" "rt" true
      true).2.2.2.2.2.1 200 (Json.str "oops")
     "invalid type: expected struct AuthStatus" rfl rfl,
   (remote_decode_distinct malformedNet stoppedState "cs" "rt" true
      true).2.2.2.1 200 (Json.str "oops")
     "invalid type: expected struct LogoutResponse" rfl rfl⟩

/-- C7: whenever the POST to /api/login yields a body that decodes as
`(success := true, error := null)`, `login` returns
`(success := true, error := none)`. -/
theorem login_round_trip (net : Request → HttpResponse) (s : SidecarState)
    (cs rt : String) (rm : Bool) (st : Nat)
    (hnet : net (loginRequest s cs rt rm) = HttpResponse.response st
      (Json.obj [("success", Json.bool true), ("error", Json.null)])) :
    login net s cs rt rm =
      Except.ok { success := true, error := none } := by
  simp [login, hnet, decodeLoginResponse, decodeSuccessError, decodeBool,
    decodeOptString]

/-- Witness for C7 at a concrete input. -/
theorem login_round_trip_witness :
    login goodLoginNet stoppedState "cs" "rt" true =
      Except.ok { success := true, error := none } :=
  login_round_trip goodLoginNet stoppedState "cs" "rt" true 200 rfl

/-- C8 counterexample: a logout body decoding as
`(success := false, error := "boom")` is relayed by the supervisor-level
`logout` with both fields, but the caller-facing `mcp_logout` payload has no
`error` field at all — the optional error string is not relayed to the
caller. -/
theorem mcp_logout_drops_error_field :
    logout boomNet stoppedState true =
      Except.ok { success := false, error := some "boom" } ∧
    mcp_logout boomNet stoppedState true =
      Except.ok (Json.obj [("success", Json.bool false)]) ∧
    (Json.obj [("success", Json.bool false)]).getField "error" = none :=
  ⟨rfl, rfl, rfl⟩

/-- C8 amended: for every child response to POST /api/logout that decodes as
`LogoutResult` with fields `success` and optional `error`, the
supervisor-level `logout` relays both fields unmodified, while the
caller-facing `mcp_logout` relays only the `success` flag and omits the
`error` field from its payload. -/
theorem logout_relays_success (net : Request → HttpResponse)
    (s : SidecarState) (cc : Bool) (st : Nat) (b : Json) (r : LogoutResponse)
    (hnet : net (logoutRequest s cc) = HttpResponse.response st b)
    (hdec : decodeLogoutResponse b = Except.ok r) :
    logout net s cc = Except.ok r ∧
    mcp_logout net s cc =
      Except.ok (Json.obj [("success", Json.bool r.success)]) := by
  have hl : logout net s cc = Except.ok r := by
    simp [logout, hnet, hdec]
  exact ⟨hl, by simp [mcp_logout, hl]⟩

/-- Witness for the amended C8 at a concrete input. -/
theorem logout_relays_success_witness :
    logout boomNet stoppedState false =
      Except.ok { success := false, error := some "boom" } ∧
    mcp_logout boomNet stoppedState false =
      Except.ok (Json.obj [("success", Json.bool false)]) :=
  logout_relays_success boomNet stoppedState false 200
    (Json.obj [("success", Json.bool false), ("error", Json.str "boom")])
    { success := false, error := some "boom" } rfl rfl

/-- C10: the remote HTTP operations neither read nor write the child slot:
as state transformers they are the identity on the supervisor state, and
their results are unchanged when the child slot is replaced by anything —
absent or present — so they can be invoked in either lifecycle state. -/
theorem remote_ops_no_frame_effect (net : Request → HttpResponse)
    (s : SidecarState) (cs rt : String) (rm cc : Bool) :
    (applyOp (Op.opHealth net) s = s ∧
     applyOp (Op.opLogin net cs rt rm) s = s ∧
     applyOp (Op.opLogout net cc) s = s ∧
     applyOp (Op.opAuthStatus net) s = s) ∧
    (∀ c : Option Child,
       health_check net { s with child := c } = health_check net s ∧
       login net { s with child := c } cs rt rm = login net s cs rt rm ∧
       logout net { s with child := c } cc = logout net s cc ∧
       get_auth_status net { s with child := c } = get_auth_status net s) :=
  ⟨⟨rfl, rfl, rfl, rfl⟩, fun _ => ⟨rfl, rfl, rfl, rfl⟩⟩
